import Mathlib

/-!
Verification of the LAMaS loan-application workflow core against its
specification.  The data model and the transition table are embedded from
the repository sources (the frontend transition matrix in
StatusTransitionDialog.tsx, the SQLModel definitions in the phase-2/3
implementation plans, and the CreditFlow integration requirements
document).  The backend Transition Executor and Note Ledger bodies are not
present in the repository snapshot (only their documentation, tests and
frontend callers are), so those two operations are modelled from the
specification, as marked in their doc comments.
-/

namespace Lamas

/-- The closed status enumeration, embedded from the LoanStatus enum in the
backend model plan (src/unnamed/part_010, class LoanStatus). -/
inductive LoanStatus where
  | received
  | verified
  | assigned
  | analyzed
  | approved
  | rejected
  | archived
deriving DecidableEq, Repr

/-- The status transition matrix, embedded row by row from nextStatusMap in
src/frontend/components/loans/StatusTransitionDialog.tsx (targets with
their UI labels). -/
def nextStatusMap : LoanStatus → List (LoanStatus × String)
  | .received => [(.verified, "Verify Application"), (.rejected, "Reject Application")]
  | .verified => [(.assigned, "Assign to Analyst"), (.rejected, "Reject Application")]
  | .assigned => [(.analyzed, "Mark as Analyzed"), (.rejected, "Reject Application")]
  | .analyzed => [(.approved, "Approve Loan"), (.rejected, "Reject Application")]
  | .approved => [(.archived, "Archive Approved Loan")]
  | .rejected => [(.archived, "Archive Rejected Application")]
  | .archived => []

/-- The set of permitted next states: the targets of the transition matrix,
labels dropped. -/
def allowed_next_states (current : LoanStatus) : List LoanStatus :=
  (nextStatusMap current).map Prod.fst

/-- An audit note row, embedded from LoanApplicationNote in
src/unnamed/part_010 (id and updated_at omitted; timestamps are Nat). -/
structure AuditNote where
  note : String
  user_id : Option Nat
  created_at : Nat
deriving DecidableEq, Repr

/-- Financial detail row, embedded from LoanApplicationDetail in
src/unnamed/part_010 (amounts as Int, timestamps as Nat). -/
structure LoanDetail where
  amount : Int
  term : Nat
  rate : Int
  quota : Int
  frequency : Option String
  purpose : Option String
  customer_comment : Option String
deriving DecidableEq, Repr

/-- A loan application row, embedded from LoanApplication in
src/unnamed/part_010, with its one-to-one detail and its note ledger held
inline (timestamps are Nat, the wall clock is passed explicitly). -/
structure LoanApplication where
  id : Nat
  customer_id : Option Nat
  status : LoanStatus
  changed_status_at : Option Nat
  is_answered : Bool
  is_approved : Bool
  is_rejected : Bool
  is_archived : Bool
  is_new : Bool
  is_edited : Bool
  is_active : Bool
  approved_at : Option Nat
  rejected_at : Option Nat
  archived_at : Option Nat
  created_at : Nat
  detail : Option LoanDetail
  notes : List AuditNote
deriving DecidableEq, Repr

/-- Transition-layer error taxonomy (spec section 7). -/
inductive TransitionError where
  | invalidTransition
  | notFound
deriving DecidableEq, Repr

/-- Modelled from the spec: the Transition Executor body
(app/services/loan_application_service.py) is not in the repository
snapshot, so this follows spec section 4.2 and the flag-sync table of
src/docs/implementation/phase-3-loan-application-apis.md: validate the
target against allowed_next_states; on failure return the application
untouched with InvalidTransition; on success set status, changed_status_at
and is_new, sync the target-specific flags, set the terminal timestamp
only on first entry (spec section 3: set once, never overwritten), and
append the optional note to the ledger. -/
def transition (app : LoanApplication) (target : LoanStatus)
    (optNote : Option String) (now : Nat) :
    LoanApplication × Option TransitionError :=
  if target ∈ allowed_next_states app.status then
    let base := { app with
      status := target
      changed_status_at := some now
      is_new := false }
    let flagged :=
      match target with
      | .approved => { base with
          is_approved := true
          is_answered := true
          approved_at := if base.approved_at = none then some now else base.approved_at }
      | .rejected => { base with
          is_rejected := true
          is_answered := true
          rejected_at := if base.rejected_at = none then some now else base.rejected_at }
      | .archived => { base with
          is_archived := true
          archived_at := if base.archived_at = none then some now else base.archived_at }
      | _ => base
    let final :=
      match optNote with
      | some t => { flagged with notes := flagged.notes ++ [⟨t, none, now⟩] }
      | none => flagged
    (final, none)
  else
    (app, some TransitionError.invalidTransition)

/-- The scoring result returned by the CreditFlow collaborator, embedded
from the CreditFlowAnalysis columns and the response schema in
src/unnamed/part_006 (decision kept as a string, as the handler compares
raw strings; confidence as a rational in place of a float, money as Int). -/
structure CreditFlowResult where
  case_id : String
  decision : String
  irs_score : Int
  confidence : Rat
  risk_level : String
  suggested_amount : Option Int
  suggested_term : Option Int
deriving DecidableEq, Repr

/-- The loan-application fields touched by the CreditFlow handler, embedded
from the LoanApplication accesses in src/unnamed/part_006 (status is a raw
string there, not the LoanStatus enum). -/
structure CFLoanApp where
  id : Nat
  status : String
  requested_amount : Int
  approved_amount : Option Int
  recommended_amount : Option Int
  analyzed_at : Option Nat
deriving DecidableEq, Repr

/-- Step 6 of analyze_loan_with_creditflow in src/unnamed/part_006 (lines
294-308), the decision-to-status routing: an if/elif chain on the raw
decision string with no confidence test and no amount test; an
unrecognized decision falls through leaving status unchanged; analyzed_at
is stamped in every case.  The guard on the suggested amount (line 303)
is a Python truthiness test, so a missing suggested_amount and a zero one
both leave recommended_amount alone. -/
def updateLoanApplicationStatus (app : CFLoanApp) (r : CreditFlowResult)
    (now : Nat) : CFLoanApp :=
  let routed :=
    if r.decision = "APPROVED" then
      { app with status := "AUTO_APPROVED", approved_amount := some app.requested_amount }
    else if r.decision = "REJECTED" then
      { app with status := "AUTO_REJECTED" }
    else if r.decision = "MANUAL_REVIEW" then
      let moved := { app with status := "PENDING_SENIOR_REVIEW" }
      match r.suggested_amount with
      | some a => if a = 0 then moved else { moved with recommended_amount := some a }
      | none => moved
    else if r.decision = "APPROVED_PENDING_REVIEW" then
      { app with status := "PENDING_JUNIOR_REVIEW" }
    else
      app
  { routed with analyzed_at := some now }

/-- The seven status values of the closed LoanStatus enumeration of
src/unnamed/part_010, as the strings they are stored as. -/
def loanStatusStrings : List String :=
  ["received", "verified", "assigned", "analyzed", "approved", "rejected", "archived"]

/-- The status strings the CreditFlow routing writes (src/unnamed/part_006,
both the FastAPI and the Laravel variant use the same map). -/
def creditflowStatuses : List String :=
  ["AUTO_APPROVED", "AUTO_REJECTED", "PENDING_SENIOR_REVIEW", "PENDING_JUNIOR_REVIEW"]

/-- The per-application evaluation state: the loan-application row and the
at-most-one stored CreditFlowAnalysis row. -/
structure EvalState where
  app : CFLoanApp
  analysis : Option CreditFlowResult
deriving DecidableEq, Repr

/-- The analyze_loan_with_creditflow endpoint of src/unnamed/part_006
(success path): if an analysis row already exists it is returned as the
cached result without calling the gateway (step 2); otherwise the gateway
result is stored, the status routed, and the fresh result returned.  The
returned Bool records whether the external gateway was invoked. -/
def analyze_loan_with_creditflow (st : EvalState) (gatewayResult : CreditFlowResult)
    (now : Nat) : EvalState × CreditFlowResult × Bool :=
  match st.analysis with
  | some existing => (st, existing, false)
  | none =>
      let app2 := updateLoanApplicationStatus st.app gatewayResult now
      ({ app := app2, analysis := some gatewayResult }, gatewayResult, true)

/-- A sample archived application, used to instantiate the terminal-state
theorems. -/
def sampleArchivedApp : LoanApplication where
  id := 1
  customer_id := none
  status := .archived
  changed_status_at := some 9
  is_answered := true
  is_approved := true
  is_rejected := false
  is_archived := true
  is_new := false
  is_edited := false
  is_active := true
  approved_at := some 5
  rejected_at := none
  archived_at := some 9
  created_at := 0
  detail := none
  notes := []

/-- A sample approved application. -/
def sampleApprovedApp : LoanApplication where
  id := 2
  customer_id := some 4
  status := .approved
  changed_status_at := some 5
  is_answered := true
  is_approved := true
  is_rejected := false
  is_archived := false
  is_new := false
  is_edited := false
  is_active := true
  approved_at := some 5
  rejected_at := none
  archived_at := none
  created_at := 0
  detail := none
  notes := []

/-- A sample application sitting in the analyzed state, approval pending. -/
def sampleAnalyzedApp : LoanApplication where
  id := 3
  customer_id := some 4
  status := .analyzed
  changed_status_at := some 2
  is_answered := false
  is_approved := false
  is_rejected := false
  is_archived := false
  is_new := false
  is_edited := false
  is_active := true
  approved_at := none
  rejected_at := none
  archived_at := none
  created_at := 1
  detail := none
  notes := []

/-- A sample application in the verified state. -/
def sampleVerifiedApp : LoanApplication where
  id := 5
  customer_id := none
  status := .verified
  changed_status_at := some 3
  is_answered := false
  is_approved := false
  is_rejected := false
  is_archived := false
  is_new := true
  is_edited := false
  is_active := true
  approved_at := none
  rejected_at := none
  archived_at := none
  created_at := 1
  detail := none
  notes := []

/-- A loan application as seen by the CreditFlow handler, pre-analysis. -/
def sampleCFApp : CFLoanApp where
  id := 7
  status := "analyzed"
  requested_amount := 250000
  approved_amount := none
  recommended_amount := none
  analyzed_at := none

/-- A gateway result with decision APPROVED and confidence zero, below any
positive threshold. -/
def lowConfidenceApprovedResult : CreditFlowResult where
  case_id := "CF-001"
  decision := "APPROVED"
  irs_score := 55
  confidence := 0
  risk_level := "HIGH"
  suggested_amount := none
  suggested_term := none

/-- A gateway result with decision MANUAL_REVIEW carrying a suggested
amount. -/
def manualReviewResult : CreditFlowResult where
  case_id := "CF-002"
  decision := "MANUAL_REVIEW"
  irs_score := 60
  confidence := 1 / 2
  risk_level := "MEDIUM"
  suggested_amount := some 100000
  suggested_term := some 12

/-- Note-ledger error taxonomy (spec section 7). -/
inductive NoteError where
  | validationError
deriving DecidableEq, Repr

/-- A text is blank when it is empty after trimming whitespace, that is,
when every character is whitespace (the test the frontend AddNoteDialog
performs as note.trim() before submitting). -/
def isBlank (text : String) : Bool :=
  text.data.all Char.isWhitespace

/-- Modelled from the spec: the backend append_note body
(POST /loan-applications/id/notes) is not in the repository snapshot (the
phase-3 document only records its empty-content validation and the
frontend AddNoteDialog guards on the trimmed text before calling it), so
this follows spec section 4.3: fail with ValidationError when the text is
empty after trimming whitespace, leaving the ledger untouched; otherwise
append one note with the current timestamp. -/
def append_note (ledger : List AuditNote) (text : String) (actor : Option Nat)
    (now : Nat) : List AuditNote × Except NoteError AuditNote :=
  if isBlank text then
    (ledger, Except.error NoteError.validationError)
  else
    (ledger ++ [⟨text, actor, now⟩], Except.ok ⟨text, actor, now⟩)

/-- Modelled from the spec: list_notes returns the ledger in creation
order, oldest first (spec section 4.3); the ledger is kept in that order,
so the listing is the ledger itself. -/
def list_notes (ledger : List AuditNote) : List AuditNote :=
  ledger

/-- Runs a sequence of append_note calls, threading the ledger through and
keeping whatever each call returns as the new ledger. -/
def appendAll (ledger : List AuditNote)
    (inputs : List (String × Option Nat × Nat)) : List AuditNote :=
  inputs.foldl (fun led i => (append_note led i.1 i.2.1 i.2.2).1) ledger

/-- Modelled from the spec: the DELETE endpoint body is not in the
repository snapshot; the phase-3 document records it as a soft delete that
sets is_active to False and preserves the record for audit, so the model
flips is_active and touches nothing else. -/
def softDeleteLoan (app : LoanApplication) : LoanApplication :=
  { app with is_active := false }

end Lamas

namespace Lamas

/-- C1: for every loan application state s and target t, the transition
operation succeeds exactly when t is in allowed_next_states s, and the
table is: received to verified or rejected; verified to assigned or
rejected; assigned to analyzed or rejected; analyzed to approved or
rejected; approved to archived; rejected to archived; archived to nothing. -/
theorem c1_transition_closure (app : LoanApplication) (t : LoanStatus)
    (optNote : Option String) (now : Nat) :
    ((transition app t optNote now).2 = none ↔ t ∈ allowed_next_states app.status)
    ∧ allowed_next_states .received = [.verified, .rejected]
    ∧ allowed_next_states .verified = [.assigned, .rejected]
    ∧ allowed_next_states .assigned = [.analyzed, .rejected]
    ∧ allowed_next_states .analyzed = [.approved, .rejected]
    ∧ allowed_next_states .approved = [.archived]
    ∧ allowed_next_states .rejected = [.archived]
    ∧ allowed_next_states .archived = [] := by
  refine ⟨?_, by decide, by decide, by decide, by decide, by decide, by decide, by decide⟩
  unfold transition
  split <;> simp_all

/-- C2: from archived every transition fails with InvalidTransition
regardless of target, and from approved or rejected the only transition
that can succeed is the one to archived. -/
theorem c2_terminality (app : LoanApplication) (t : LoanStatus)
    (optNote : Option String) (now : Nat) :
    (app.status = .archived →
      (transition app t optNote now).2 = some TransitionError.invalidTransition)
    ∧ ((app.status = .approved ∨ app.status = .rejected) →
      ((transition app t optNote now).2 = none ↔ t = .archived)) := by
  constructor
  · intro h
    unfold transition
    rw [h]
    simp [allowed_next_states, nextStatusMap]
  · intro h
    unfold transition
    rcases h with h | h <;> rw [h] <;>
      simp [allowed_next_states, nextStatusMap] <;>
      split <;> simp_all

/-- C2 witness: an archived application refuses a move to verified, and an
approved application can only move to archived. -/
theorem c2_terminality_witness :
    (transition sampleArchivedApp .verified none 10).2
      = some TransitionError.invalidTransition
    ∧ ((transition sampleApprovedApp .verified none 10).2 = none
      ↔ (LoanStatus.verified = .archived)) :=
  ⟨(c2_terminality sampleArchivedApp .verified none 10).1 rfl,
   (c2_terminality sampleApprovedApp .verified none 10).2 (Or.inl rfl)⟩

/-- C3: every successful transition sets changed_status_at to now and
is_new to false; on target approved it sets is_approved, is_answered and
approved_at; analogously for rejected and archived; and each terminal
timestamp, once set, is preserved by any later successful transition. -/
theorem c3_flag_consistency (app : LoanApplication) (t : LoanStatus)
    (optNote : Option String) (now : Nat)
    (h : (transition app t optNote now).2 = none) :
    ((transition app t optNote now).1).changed_status_at = some now
    ∧ ((transition app t optNote now).1).is_new = false
    ∧ (t = .approved →
        ((transition app t optNote now).1).is_approved = true
        ∧ ((transition app t optNote now).1).is_answered = true
        ∧ ((transition app t optNote now).1).approved_at.isSome = true)
    ∧ (t = .rejected →
        ((transition app t optNote now).1).is_rejected = true
        ∧ ((transition app t optNote now).1).is_answered = true
        ∧ ((transition app t optNote now).1).rejected_at.isSome = true)
    ∧ (t = .archived →
        ((transition app t optNote now).1).is_archived = true
        ∧ ((transition app t optNote now).1).archived_at.isSome = true)
    ∧ (app.approved_at.isSome = true →
        ((transition app t optNote now).1).approved_at = app.approved_at)
    ∧ (app.rejected_at.isSome = true →
        ((transition app t optNote now).1).rejected_at = app.rejected_at)
    ∧ (app.archived_at.isSome = true →
        ((transition app t optNote now).1).archived_at = app.archived_at) := by
  unfold transition at h ⊢
  by_cases hm : t ∈ allowed_next_states app.status
  · simp only [if_pos hm] at h ⊢
    cases t <;> cases optNote <;>
      cases happ : app.approved_at <;>
      cases hrej : app.rejected_at <;>
      cases harc : app.archived_at <;>
      simp_all
  · simp [if_neg hm] at h

/-- C3 witness: from analyzed to approved at time 7, the approval flag and
the approval timestamp come out set. -/
theorem c3_flag_consistency_witness :
    (transition sampleAnalyzedApp .approved (some "ok by analyst") 7).1.is_approved = true
    ∧ (transition sampleAnalyzedApp .approved (some "ok by analyst") 7).1.approved_at.isSome
      = true :=
  ⟨((c3_flag_consistency sampleAnalyzedApp .approved (some "ok by analyst") 7
      (by decide)).2.2.1 rfl).1,
   ((c3_flag_consistency sampleAnalyzedApp .approved (some "ok by analyst") 7
      (by decide)).2.2.1 rfl).2.2⟩

/-- C4: a transition to a target not permitted from the current status
performs no mutation at all (the returned application record is exactly
the input, so status, every flag and changed_status_at are unchanged) and
surfaces InvalidTransition. -/
theorem c4_no_mutation_on_invalid (app : LoanApplication) (t : LoanStatus)
    (optNote : Option String) (now : Nat)
    (h : t ∉ allowed_next_states app.status) :
    transition app t optNote now = (app, some TransitionError.invalidTransition) := by
  unfold transition
  simp [if_neg h]

/-- C4 witness: verified to approved is not permitted; the call returns the
unchanged record and InvalidTransition. -/
theorem c4_no_mutation_on_invalid_witness :
    transition sampleVerifiedApp .approved none 9
      = (sampleVerifiedApp, some TransitionError.invalidTransition) :=
  c4_no_mutation_on_invalid sampleVerifiedApp .approved none 9 (by decide)

/-- C5 counterexample: storing an APPROVED scoring result assigns the
status AUTO_APPROVED, a value outside the closed seven-value
enumeration. -/
theorem c5_status_enum_counterexample :
    (updateLoanApplicationStatus sampleCFApp lowConfidenceApprovedResult 10).status
      = "AUTO_APPROVED"
    ∧ "AUTO_APPROVED" ∉ loanStatusStrings := by
  exact ⟨rfl, by decide⟩

/-- C5 amended: the scoring-result routing either leaves the status alone
(unrecognized decision) or writes one of the four CreditFlow statuses,
every one of which lies outside the closed seven-value enumeration; the
status field is thus written outside the Transition Executor and outside
the enumeration. -/
theorem c5_status_enum_amended (app : CFLoanApp) (r : CreditFlowResult) (now : Nat) :
    ((updateLoanApplicationStatus app r now).status = app.status
      ∨ (updateLoanApplicationStatus app r now).status ∈ creditflowStatuses)
    ∧ ∀ s ∈ creditflowStatuses, s ∉ loanStatusStrings := by
  refine ⟨?_, by decide⟩
  unfold updateLoanApplicationStatus
  rcases hs : r.suggested_amount with _ | a
  · split_ifs <;> simp [creditflowStatuses, hs]
  · by_cases ha : a = 0 <;> split_ifs <;> simp [creditflowStatuses, hs, ha]

/-- C5 amended witness: instantiated at the sample APPROVED analysis. -/
theorem c5_status_enum_amended_witness :
    ((updateLoanApplicationStatus sampleCFApp lowConfidenceApprovedResult 10).status
        = sampleCFApp.status
      ∨ (updateLoanApplicationStatus sampleCFApp lowConfidenceApprovedResult 10).status
        ∈ creditflowStatuses)
    ∧ "AUTO_APPROVED" ∉ loanStatusStrings :=
  ⟨(c5_status_enum_amended sampleCFApp lowConfidenceApprovedResult 10).1,
   (c5_status_enum_amended sampleCFApp lowConfidenceApprovedResult 10).2
     "AUTO_APPROVED" (by decide)⟩

/-- C6 counterexample: a result with decision APPROVED and confidence zero
(below any positive high threshold) is routed straight to AUTO_APPROVED,
not to either pending-human-review status, so confidence plays no role in
the routing. -/
theorem c6_confidence_counterexample :
    lowConfidenceApprovedResult.confidence = 0
    ∧ (updateLoanApplicationStatus sampleCFApp lowConfidenceApprovedResult 10).status
      = "AUTO_APPROVED"
    ∧ (updateLoanApplicationStatus sampleCFApp lowConfidenceApprovedResult 10).status
      ≠ "PENDING_JUNIOR_REVIEW"
    ∧ (updateLoanApplicationStatus sampleCFApp lowConfidenceApprovedResult 10).status
      ≠ "PENDING_SENIOR_REVIEW" := by
  refine ⟨rfl, rfl, by decide, by decide⟩

/-- C6 amended: the routing is a pure function of the decision string:
APPROVED goes to AUTO_APPROVED (whatever the confidence and the requested
amount) and copies the requested amount into approved_amount; REJECTED
goes to AUTO_REJECTED; MANUAL_REVIEW goes to PENDING_SENIOR_REVIEW,
records a nonzero suggested amount as recommended_amount, leaves a
missing or zero suggested amount unrecorded (the guard is a truthiness
test) and leaves the requested amount unchanged; APPROVED_PENDING_REVIEW
goes to PENDING_JUNIOR_REVIEW; analyzed_at is stamped in every case; no
monetary escalation exists. -/
theorem c6_decision_routing (app : CFLoanApp) (r : CreditFlowResult) (now : Nat) :
    (r.decision = "APPROVED" →
      (updateLoanApplicationStatus app r now).status = "AUTO_APPROVED"
      ∧ (updateLoanApplicationStatus app r now).approved_amount = some app.requested_amount)
    ∧ (r.decision = "REJECTED" →
      (updateLoanApplicationStatus app r now).status = "AUTO_REJECTED")
    ∧ (r.decision = "MANUAL_REVIEW" →
      (updateLoanApplicationStatus app r now).status = "PENDING_SENIOR_REVIEW"
      ∧ (updateLoanApplicationStatus app r now).requested_amount = app.requested_amount
      ∧ (∀ a, r.suggested_amount = some a → ¬ a = 0 →
          (updateLoanApplicationStatus app r now).recommended_amount = some a)
      ∧ ((r.suggested_amount = none ∨ r.suggested_amount = some 0) →
          (updateLoanApplicationStatus app r now).recommended_amount = app.recommended_amount))
    ∧ (r.decision = "APPROVED_PENDING_REVIEW" →
      (updateLoanApplicationStatus app r now).status = "PENDING_JUNIOR_REVIEW")
    ∧ (updateLoanApplicationStatus app r now).analyzed_at = some now := by
  unfold updateLoanApplicationStatus
  rcases hs : r.suggested_amount with _ | a
  · split_ifs <;> simp_all
  · by_cases ha : a = 0 <;> split_ifs <;> simp_all

/-- C6 amended witness: the MANUAL_REVIEW sample is routed to
PENDING_SENIOR_REVIEW with its nonzero suggested amount recorded and the
requested amount untouched. -/
theorem c6_decision_routing_witness :
    (updateLoanApplicationStatus sampleCFApp manualReviewResult 10).status
      = "PENDING_SENIOR_REVIEW"
    ∧ (updateLoanApplicationStatus sampleCFApp manualReviewResult 10).requested_amount
      = sampleCFApp.requested_amount
    ∧ (updateLoanApplicationStatus sampleCFApp manualReviewResult 10).recommended_amount
      = some 100000 :=
  ⟨((c6_decision_routing sampleCFApp manualReviewResult 10).2.2.1 rfl).1,
   ((c6_decision_routing sampleCFApp manualReviewResult 10).2.2.1 rfl).2.1,
   ((c6_decision_routing sampleCFApp manualReviewResult 10).2.2.1 rfl).2.2.1
     100000 rfl (by decide)⟩

/-- C7: once a scoring result is stored, a second evaluation call returns
the very same stored result, does not invoke the gateway, and leaves the
state untouched; at most one result is ever stored (the analysis slot of
the state after any call holds exactly the result that call returned). -/
theorem c7_evaluate_idempotent (st : EvalState) (g1 g2 : CreditFlowResult)
    (n1 n2 : Nat) :
    analyze_loan_with_creditflow (analyze_loan_with_creditflow st g1 n1).1 g2 n2
      = ((analyze_loan_with_creditflow st g1 n1).1,
         (analyze_loan_with_creditflow st g1 n1).2.1, false)
    ∧ (analyze_loan_with_creditflow st g1 n1).1.analysis
      = some (analyze_loan_with_creditflow st g1 n1).2.1 := by
  cases h : st.analysis <;> simp [analyze_loan_with_creditflow, h]

/-- C8: append_note fails with ValidationError exactly when the text is
empty after trimming whitespace, leaving the ledger untouched in that
case, and otherwise appends exactly one note carrying the text. -/
theorem c8_empty_note_rejection (ledger : List AuditNote) (text : String)
    (actor : Option Nat) (now : Nat) :
    (isBlank text = true →
      append_note ledger text actor now
        = (ledger, Except.error NoteError.validationError))
    ∧ (isBlank text = false →
      append_note ledger text actor now
        = (ledger ++ [⟨text, actor, now⟩], Except.ok ⟨text, actor, now⟩)) := by
  constructor <;> intro h <;> simp [append_note, h]

/-- C8 witness: the empty text and a three-space text are rejected with the
ledger untouched, while a non-blank text is appended. -/
theorem c8_empty_note_rejection_witness :
    append_note [] "" none 0 = ([], Except.error NoteError.validationError)
    ∧ append_note [] "   " none 0 = ([], Except.error NoteError.validationError)
    ∧ append_note [] "ok" (some 1) 3
      = ([⟨"ok", some 1, 3⟩], Except.ok ⟨"ok", some 1, 3⟩) :=
  ⟨(c8_empty_note_rejection [] "" none 0).1 (by decide),
   (c8_empty_note_rejection [] "   " none 0).1 (by decide),
   (c8_empty_note_rejection [] "ok" (some 1) 3).2 (by decide)⟩

/-- Helper: running a sequence of non-blank append_note calls appends, in
call order, exactly one note per call to the initial ledger. -/
theorem appendAll_spec (inputs : List (String × Option Nat × Nat)) :
    ∀ led : List AuditNote, (∀ i ∈ inputs, isBlank i.1 = false) →
      appendAll led inputs
        = led ++ inputs.map (fun i => ⟨i.1, i.2.1, i.2.2⟩) := by
  induction inputs with
  | nil =>
      intro led _
      simp [appendAll]
  | cons i is ih =>
      intro led h
      have hi : isBlank i.1 = false := h i (by simp)
      have his : ∀ j ∈ is, isBlank j.1 = false := fun j hj => h j (by simp [hj])
      have hstep : appendAll led (i :: is)
          = appendAll (append_note led i.1 i.2.1 i.2.2).1 is := rfl
      rw [hstep, show (append_note led i.1 i.2.1 i.2.2).1
            = led ++ [⟨i.1, i.2.1, i.2.2⟩] by simp [append_note, hi],
          ih _ his]
      simp

/-- C9: after N successful append_note calls starting from an empty
ledger, list_notes returns exactly those N notes in call order; moreover
every append_note call and every transition call only ever extends the
existing ledger at its end, so no operation removes, edits or reorders an
existing note. -/
theorem c9_note_append_only (inputs : List (String × Option Nat × Nat))
    (h : ∀ i ∈ inputs, isBlank i.1 = false) :
    (list_notes (appendAll [] inputs)
        = inputs.map (fun i => ⟨i.1, i.2.1, i.2.2⟩)
      ∧ (list_notes (appendAll [] inputs)).length = inputs.length)
    ∧ (∀ (ledger : List AuditNote) (t : String) (a : Option Nat) (n : Nat),
        ∃ tail, (append_note ledger t a n).1 = ledger ++ tail)
    ∧ (∀ (app : LoanApplication) (tgt : LoanStatus) (optNote : Option String)
        (now : Nat),
        ∃ tail, ((transition app tgt optNote now).1).notes = app.notes ++ tail) := by
  refine ⟨⟨?_, ?_⟩, ?_, ?_⟩
  · simpa [list_notes] using appendAll_spec inputs [] h
  · rw [show list_notes (appendAll [] inputs)
          = inputs.map (fun i => ⟨i.1, i.2.1, i.2.2⟩) by
        simpa [list_notes] using appendAll_spec inputs [] h]
    simp
  · intro ledger t a n
    unfold append_note
    split
    · exact ⟨[], by simp⟩
    · exact ⟨[⟨t, a, n⟩], rfl⟩
  · intro app tgt optNote now
    unfold transition
    by_cases hm : tgt ∈ allowed_next_states app.status
    · simp only [if_pos hm]
      cases tgt <;> cases optNote <;>
        first
          | exact ⟨_, rfl⟩
          | exact ⟨[], by simp⟩
    · exact ⟨[], by simp [if_neg hm]⟩

/-- C9 witness: two concrete non-blank notes come back from list_notes in
call order. -/
theorem c9_note_append_only_witness :
    list_notes (appendAll [] [("first note", some 1, 1), ("second note", none, 2)])
      = [⟨"first note", some 1, 1⟩, ⟨"second note", none, 2⟩] :=
  ((c9_note_append_only [("first note", some 1, 1), ("second note", none, 2)]
    (by decide)).1).1

/-- C10: the DELETE operation is a soft delete: it sets is_active to false
and changes nothing else; the record with its financial detail and its
notes stays in place. -/
theorem c10_soft_delete (app : LoanApplication) :
    (softDeleteLoan app).is_active = false
    ∧ (softDeleteLoan app).id = app.id
    ∧ (softDeleteLoan app).customer_id = app.customer_id
    ∧ (softDeleteLoan app).status = app.status
    ∧ (softDeleteLoan app).changed_status_at = app.changed_status_at
    ∧ (softDeleteLoan app).is_answered = app.is_answered
    ∧ (softDeleteLoan app).is_approved = app.is_approved
    ∧ (softDeleteLoan app).is_rejected = app.is_rejected
    ∧ (softDeleteLoan app).is_archived = app.is_archived
    ∧ (softDeleteLoan app).is_new = app.is_new
    ∧ (softDeleteLoan app).is_edited = app.is_edited
    ∧ (softDeleteLoan app).approved_at = app.approved_at
    ∧ (softDeleteLoan app).rejected_at = app.rejected_at
    ∧ (softDeleteLoan app).archived_at = app.archived_at
    ∧ (softDeleteLoan app).created_at = app.created_at
    ∧ (softDeleteLoan app).detail = app.detail
    ∧ (softDeleteLoan app).notes = app.notes := by
  simp [softDeleteLoan]

end Lamas
